import Mathlib

/-!
Verification of the searxng bot-detection helper module
(`searx/botdetection/_helpers.py`): the client-identity resolver
`get_real_ip`, the network derivation `get_network`, the deduplicating
error logger `_log_error_only_once`, the block responder
`too_many_requests` and the request diagnostics formatter `dump_request`,
shallowly embedded as pure Lean functions with explicit logging state.
-/

set_option maxRecDepth 16384

namespace Botdetection

/-- Severity levels of the log lines this module emits. -/
inductive LogLevel where
  | error
  | warning
  | debug
deriving DecidableEq, Repr

/-- One emitted log line: a severity and the formatted message. -/
structure LogEntry where
  level : LogLevel
  msg : String
deriving DecidableEq, Repr

/-- Shallow model of the parts of a `flask.Request` this module reads:
the URL path, the HTTP headers (a key-value list, first match wins,
case-insensitive keys), the rendered form data, and the WSGI transport
peer address (`request.remote_addr`, absent in some WSGI setups). -/
structure Request where
  path : String
  headers : List (String × String)
  form : String
  remote_addr : Option String
deriving DecidableEq, Repr

/-- ASCII lowercasing of one character, for header-name comparison. -/
def asciiLower (c : Char) : Char :=
  if 'A' ≤ c && c ≤ 'Z' then Char.ofNat (c.toNat + 32) else c

/-- Case-insensitive equality of header names. -/
def headerKeyEq (a b : String) : Bool :=
  a.data.map asciiLower == b.data.map asciiLower

/-- Models `request.headers.get(name)`: first matching header value,
with case-insensitive key comparison, `none` when absent. -/
def headersGet (req : Request) (name : String) : Option String :=
  (req.headers.find? (fun p => headerKeyEq p.1 name)).map (fun p => p.2)

/-- Python truthiness of an optional string: `None` and the empty
string are falsy, every other string is truthy. -/
def pyTruthy (o : Option String) : Bool :=
  match o with
  | none => false
  | some s => !s.isEmpty

/-- Models how a Python f-string renders `headers.get(name)`: the header
value itself, or the text `None` when the header is absent. -/
def headerRepr (o : Option String) : String :=
  match o with
  | none => "None"
  | some s => s

/-- Embeds `dump_request` (lines 22-47): one pipe-delimited line with a
fixed field order, rendering each absent header as `None`. -/
def dump_request (req : Request) : String :=
  req.path
    ++ " || X-Forwarded-For: " ++ headerRepr (headersGet req "X-Forwarded-For")
    ++ " || X-Real-IP: " ++ headerRepr (headersGet req "X-Real-IP")
    ++ " || form: " ++ req.form
    ++ " || Accept: " ++ headerRepr (headersGet req "Accept")
    ++ " || Accept-Language: " ++ headerRepr (headersGet req "Accept-Language")
    ++ " || Accept-Encoding: " ++ headerRepr (headersGet req "Accept-Encoding")
    ++ " || Content-Type: " ++ headerRepr (headersGet req "Content-Type")
    ++ " || Content-Length: " ++ headerRepr (headersGet req "Content-Length")
    ++ " || Connection: " ++ headerRepr (headersGet req "Connection")
    ++ " || User-Agent: " ++ headerRepr (headersGet req "User-Agent")

/-- Embeds `_log_error_only_once` (lines 71-77).  The module-level
mutable list `_logged_errors` is passed and returned explicitly; the
second component is the list of log lines this call emits. -/
def log_error_only_once (err_msg : String) (logged_errors : List String) :
    List String × List LogEntry :=
  if err_msg ∈ logged_errors then (logged_errors, [])
  else (logged_errors ++ [err_msg], [⟨LogLevel.error, err_msg⟩])

/-- Configuration surface read by this module: `real_ip.ipv4_prefix`,
`real_ip.ipv6_prefix` and `real_ip.x_for`. -/
structure TrustConfig where
  ipv4Prefix : Nat
  ipv6Prefix : Nat
  x_for : Nat
deriving DecidableEq, Repr

/-- Splits a character list at every occurrence of the separator,
keeping empty pieces, as the Python single-character `split` does. -/
def splitOnChar (sep : Char) : List Char → List (List Char)
  | [] => [[]]
  | c :: rest =>
    let r := splitOnChar sep rest
    if c == sep then [] :: r
    else
      match r with
      | [] => [[c]]
      | h :: t => (c :: h) :: t

/-- Models the Python `str.split` with a one-character separator. -/
def pySplit (sep : Char) (s : String) : List String :=
  (splitOnChar sep s.data).map String.mk

/-- Models the Python `str.strip`: drop whitespace from both ends. -/
def pyStrip (s : String) : String :=
  String.mk (((s.data.dropWhile Char.isWhitespace).reverse.dropWhile
    Char.isWhitespace).reverse)

/-- Embeds lines 119-121 of `get_real_ip`: split the X-Forwarded-For
value on commas, strip each entry, and take the entry at Python index
`-min(len(parts), x_for)`.  The split of any string is non-empty, so
`min` is zero only when `x_for` is zero, and Python index `-0` is the
first element. -/
def chainCandidate (x_for : Nat) (forwarded_for : String) : String :=
  let parts := (pySplit ',' forwarded_for).map pyStrip
  let k := min parts.length x_for
  if k == 0 then parts.getD 0 "" else parts.getD (parts.length - k) ""

/-- Warning line of line 127: X-Real-IP disagrees with X-Forwarded-For. -/
def xRealIPWarnMsg (real_ip forwarded_for : String) : String :=
  "IP from X-Real-IP (" ++ real_ip
    ++ ") is not equal to IP from X-Forwarded-For (" ++ forwarded_for ++ ")"

/-- Warning line of lines 129-131: the WSGI peer address disagrees with
X-Forwarded-For. -/
def wsgiXffWarnMsg (remote_addr forwarded_for : String) : String :=
  "IP from WSGI environment (" ++ remote_addr
    ++ ") is not equal to IP from X-Forwarded-For (" ++ forwarded_for ++ ")"

/-- Warning line of line 134: the WSGI peer address disagrees with
X-Real-IP. -/
def wsgiXRealWarnMsg (remote_addr real_ip : String) : String :=
  "IP from WSGI environment (" ++ remote_addr
    ++ ") is not equal to IP from X-Real-IP (" ++ real_ip ++ ")"

/-- Embeds `get_real_ip` (lines 107-137).  Input: the trust
configuration, the request, and the current `_logged_errors` state.
Output: the resolved address string, the new `_logged_errors` state, and
the log lines emitted by this call, in emission order. -/
def get_real_ip (cfg : TrustConfig) (req : Request) (logged_errors : List String) :
    String × List String × List LogEntry :=
  let forwarded_for := headersGet req "X-Forwarded-For"
  let real_ip := headersGet req "X-Real-IP"
  let remote_addr := req.remote_addr
  let step1 : Option String × List String × List LogEntry :=
    if pyTruthy forwarded_for then
      (some (chainCandidate (TrustConfig.x_for cfg) (forwarded_for.getD "")),
        logged_errors, [])
    else
      let r := log_error_only_once "X-Forwarded-For header is not set!" logged_errors
      (forwarded_for, r.1, r.2)
  let ff := step1.1
  let step2 : List String × List LogEntry :=
    if pyTruthy real_ip then (step1.2.1, [])
    else log_error_only_once "X-Real-IP header is not set!" step1.2.1
  let warns : List LogEntry :=
    (if pyTruthy ff && pyTruthy real_ip && (ff.getD "" != real_ip.getD "") then
      [⟨LogLevel.warning, xRealIPWarnMsg (real_ip.getD "") (ff.getD "")⟩] else [])
    ++ (if pyTruthy ff && pyTruthy remote_addr && (ff.getD "" != remote_addr.getD "") then
      [⟨LogLevel.warning, wsgiXffWarnMsg (remote_addr.getD "") (ff.getD "")⟩] else [])
    ++ (if pyTruthy real_ip && pyTruthy remote_addr && (real_ip.getD "" != remote_addr.getD "") then
      [⟨LogLevel.warning, wsgiXRealWarnMsg (remote_addr.getD "") (real_ip.getD "")⟩] else [])
  let result :=
    if pyTruthy ff then ff.getD ""
    else if pyTruthy real_ip then real_ip.getD ""
    else if pyTruthy remote_addr then remote_addr.getD ""
    else "0.0.0.0"
  (result, step2.1, step1.2.2 ++ step2.2 ++ warns)

/-- Specification-side view of the three candidate sources of
`get_real_ip`, in priority order: the chain-derived entry (empty when
the header is absent or empty), the X-Real-IP value, the peer address. -/
def resolvedCandidates (cfg : TrustConfig) (req : Request) : List String :=
  [ (match headersGet req "X-Forwarded-For" with
     | none => ""
     | some s => if s.isEmpty then "" else chainCandidate (TrustConfig.x_for cfg) s),
    (headersGet req "X-Real-IP").getD "",
    req.remote_addr.getD "" ]

/-- The chain-derived candidate exactly as `get_real_ip` computes it
before the cross-checks: the selected entry when the X-Forwarded-For
header is truthy, otherwise the unchanged header value. -/
def ffValue (cfg : TrustConfig) (req : Request) : Option String :=
  if pyTruthy (headersGet req "X-Forwarded-For") then
    some (chainCandidate (TrustConfig.x_for cfg)
      ((headersGet req "X-Forwarded-For").getD ""))
  else headersGet req "X-Forwarded-For"

/-- An IP host address as the Python `ipaddress` module represents it:
a version tag and the numeric value of the address. -/
inductive IPAddr where
  | v4 (val : Nat)
  | v6 (val : Nat)
deriving DecidableEq, Repr

/-- Version number of an address, 4 or 6. -/
def IPAddr.version : IPAddr → Nat
  | .v4 _ => 4
  | .v6 _ => 6

/-- Models the parsing of one dotted-quad octet by
`ipaddress.IPv4Address`: one to three ASCII digits, no leading zero,
value at most 255. -/
def parseIPv4Octet (s : String) : Option Nat :=
  if s.isEmpty then none
  else if s.length > 3 then none
  else if !s.data.all Char.isDigit then none
  else if s.length > 1 && s.data.getD 0 'x' == '0' then none
  else
    let n := s.data.foldl (fun a c => a * 10 + (c.toNat - 48)) 0
    if n ≤ 255 then some n else none

/-- Models `ipaddress.IPv4Address` string parsing (external collaborator,
the address-parsing primitive of the spec): exactly four octets. -/
def parseIPv4 (s : String) : Option Nat :=
  match (pySplit '.' s).mapM parseIPv4Octet with
  | some [a, b, c, d] => some (((a * 256 + b) * 256 + c) * 256 + d)
  | _ => none

/-- Numeric value of a hexadecimal digit, assuming it is one. -/
def hexDigitVal (c : Char) : Nat :=
  if c.isDigit then c.toNat - 48
  else if 'a' ≤ c && c ≤ 'f' then c.toNat - 97 + 10
  else c.toNat - 65 + 10

/-- Recognizer for hexadecimal digits. -/
def isHexDigitChar (c : Char) : Bool :=
  c.isDigit || ('a' ≤ c && c ≤ 'f') || ('A' ≤ c && c ≤ 'F')

/-- Models the parsing of one IPv6 hextet: one to four hex digits. -/
def parseHextet (s : String) : Option Nat :=
  if s.isEmpty || s.length > 4 then none
  else if !s.data.all isHexDigitChar then none
  else some (s.data.foldl (fun acc c => acc * 16 + hexDigitVal c) 0)

/-- Lowercase hex digit character for a value below 16. -/
def hexDigitChar (n : Nat) : Char :=
  if n < 10 then Char.ofNat (48 + n) else Char.ofNat (97 + n - 10)

/-- Renders a 16-bit value the way the Python format `x` does: lowercase
hex digits without leading zeros. -/
def toHexStr (n : Nat) : String :=
  let ds := ([n / 4096 % 16, n / 256 % 16, n / 16 % 16, n % 16]).map hexDigitChar
  let ds := ds.dropWhile (fun c => c == '0')
  if ds.isEmpty then "0" else String.mk ds

/-- Folds a hextet list into the numeric address value. -/
def hextetsToNat (l : List Nat) : Nat :=
  l.foldl (fun acc h => acc * 65536 + h) 0

/-- Replaces a trailing embedded dotted-quad part by its two hextets, as
`ipaddress.IPv6Address` parsing does before hextet processing. -/
def v6ExpandEmbeddedV4 (parts : List String) : Option (List String) :=
  match parts.getLast? with
  | none => none
  | some last =>
    if last.data.contains '.' then
      match parseIPv4 last with
      | some v4 => some (parts.dropLast ++ [toHexStr (v4 / 65536), toHexStr (v4 % 65536)])
      | none => none
    else some parts

/-- Combines the hextet texts around one `::` gap, mirroring the
accumulation loop of the Python `_ip_int_from_string`. -/
def v6Assemble (parts : List String) (partsHi partsLo skipped : Nat) : Option Nat :=
  match (parts.take partsHi).mapM parseHextet,
        (parts.drop (parts.length - partsLo)).mapM parseHextet with
  | some his, some los =>
    some (hextetsToNat (his ++ List.replicate skipped 0 ++ los))
  | _, _ => none

/-- Models `ipaddress.IPv6Address` string parsing (external collaborator;
zone identifiers are not modelled): split on colons, expand a trailing
embedded IPv4 part, locate at most one `::` gap strictly inside the part
list, check the clamped part counts, and fold the hextets. -/
def parseIPv6 (s : String) : Option Nat :=
  let parts0 := pySplit ':' s
  if parts0.length < 3 then none
  else match v6ExpandEmbeddedV4 parts0 with
  | none => none
  | some parts =>
    let n := parts.length
    if n > 9 then none
    else
      let inner := (List.range n).filter
        (fun i => decide (0 < i) && decide (i < n - 1) && (parts.getD i "?" == ""))
      match inner with
      | [] =>
        if n != 8 then none
        else if parts.getD 0 "?" == "" || parts.getD (n - 1) "?" == "" then none
        else v6Assemble parts n 0 0
      | [i] =>
        let headEmpty := parts.getD 0 "?" == ""
        let lastEmpty := parts.getD (n - 1) "?" == ""
        let partsHi := if headEmpty then i - 1 else i
        let partsLo := if lastEmpty then n - i - 2 else n - i - 1
        if headEmpty && partsHi != 0 then none
        else if lastEmpty && partsLo != 0 then none
        else if partsHi + partsLo ≥ 8 then none
        else v6Assemble parts partsHi partsLo (8 - (partsHi + partsLo))
      | _ => none

/-- Models `ipaddress.ip_address`: try IPv4, then IPv6. -/
def parseIP (s : String) : Option IPAddr :=
  match parseIPv4 s with
  | some v => some (IPAddr.v4 v)
  | none =>
    match parseIPv6 s with
    | some v => some (IPAddr.v6 v)
    | none => none

/-- An IP network: the (masked) network address and the CIDR length. -/
structure IPNetwork where
  addr : IPAddr
  prefixLen : Nat
deriving DecidableEq, Repr

/-- Masks the host bits of a value: keeps the top `p` of `total` bits. -/
def maskValue (v total p : Nat) : Nat :=
  v / 2 ^ (total - p) * 2 ^ (total - p)

/-- Models `ipaddress.ip_network(f"{addr}/{p}", strict=False)` applied to
an already-parsed address: fails only when the CIDR length is out of
range for the version, otherwise masks the host bits. -/
def ip_network (a : IPAddr) (p : Nat) : Option IPNetwork :=
  match a with
  | .v4 v => if p ≤ 32 then some ⟨IPAddr.v4 (maskValue v 32 p), p⟩ else none
  | .v6 v => if p ≤ 128 then some ⟨IPAddr.v6 (maskValue v 128 p), p⟩ else none

/-- Embeds `get_network` (lines 61-68): pick the configured CIDR length
for the version of the address and build the network non-strictly. -/
def get_network (real_ip : IPAddr) (cfg : TrustConfig) : Option IPNetwork :=
  let p := if IPAddr.version real_ip == 6 then TrustConfig.ipv6Prefix cfg
           else TrustConfig.ipv4Prefix cfg
  ip_network real_ip p

/-- Composition of the address-parsing primitive with `get_network`: the
string-level contract of the AddressTrust component. -/
def networkOf (s : String) (cfg : TrustConfig) : Option IPNetwork :=
  (parseIP s).bind (fun a => get_network a cfg)

/-- Dotted-quad rendering of an IPv4 value. -/
def v4Compressed (v : Nat) : String :=
  toString (v / 16777216 % 256) ++ "." ++ toString (v / 65536 % 256)
    ++ "." ++ toString (v / 256 % 256) ++ "." ++ toString (v % 256)

/-- The eight 16-bit groups of an IPv6 value, most significant first. -/
def v6Hextets (v : Nat) : List Nat :=
  (List.range 8).map (fun i => v / 2 ^ (16 * (7 - i)) % 65536)

/-- First longest run of zero hextets, as the tracking loop of the
Python `_compress_hextets` finds it: start index and length. -/
def bestZeroRun (l : List Nat) : Nat × Nat :=
  let step := fun (st : (Nat × Nat) × (Nat × Nat)) (p : Nat × Nat) =>
    let best := st.1
    let cur := st.2
    if p.2 == 0 then
      let cs := if cur.2 == 0 then p.1 else cur.1
      let cl := cur.2 + 1
      if cl > best.2 then ((cs, cl), (cs, cl)) else (best, (cs, cl))
    else (best, (cur.1, 0))
  (l.enum.foldl step ((0, 0), (0, 0))).1

/-- Joins hextet texts around one compressed zero run, with the empty
edge padding the Python code adds before the final colon join. -/
def compressJoin (before after : List String) : String :=
  let l := before ++ [""] ++ after
  let l := if after.isEmpty then l ++ [""] else l
  let l := if before.isEmpty then [""] ++ l else l
  String.intercalate ":" l

/-- Canonical compressed rendering of an IPv6 value, following the
Python `_compress_hextets`: the first longest run of two or more zero
hextets becomes `::`. -/
def v6Compressed (v : Nat) : String :=
  let hx := v6Hextets v
  let best := bestZeroRun hx
  if best.2 > 1 then
    compressJoin ((hx.take best.1).map toHexStr) ((hx.drop (best.1 + best.2)).map toHexStr)
  else String.intercalate ":" (hx.map toHexStr)

/-- Models the `compressed` property of a Python network object: the
compressed network address, a slash, and the CIDR length. -/
def IPNetwork.compressed (n : IPNetwork) : String :=
  (match n.addr with
   | .v4 v => v4Compressed v
   | .v6 v => v6Compressed v) ++ "/" ++ toString n.prefixLen

/-- Shallow model of the HTTP response `flask.make_response` builds. -/
structure Response where
  body : String
  status : Nat
deriving DecidableEq, Repr

/-- Embeds `too_many_requests` (lines 50-58): log the block decision at
debug severity and return the fixed 429 response. -/
def too_many_requests (network : IPNetwork) (log_msg : String) :
    List LogEntry × Response :=
  ([⟨LogLevel.debug, "BLOCK " ++ IPNetwork.compressed network ++ ": " ++ log_msg⟩],
    ⟨"Too Many Requests", 429⟩)

/-- C9: for every network value and reason string, `too_many_requests`
returns status 429 with body Too Many Requests, and logs one debug line
carrying the compressed network form and the reason; it is a total
function, so it never fails. -/
theorem c9_too_many_requests (network : IPNetwork) (log_msg : String) :
    (too_many_requests network log_msg).2.status = 429 ∧
    (too_many_requests network log_msg).2.body = "Too Many Requests" ∧
    (too_many_requests network log_msg).1 =
      [⟨LogLevel.debug, "BLOCK " ++ IPNetwork.compressed network ++ ": " ++ log_msg⟩] :=
  ⟨rfl, rfl, rfl⟩

/-- C8: `dump_request` renders the same fixed field order for every
request, each absent header as the text None; in particular a request
without a User-Agent header ends with the User-Agent field carrying that
marker. -/
theorem c8_dump_request (req : Request)
    (hua : headersGet req "User-Agent" = none) :
    dump_request req =
      req.path
        ++ " || X-Forwarded-For: " ++ headerRepr (headersGet req "X-Forwarded-For")
        ++ " || X-Real-IP: " ++ headerRepr (headersGet req "X-Real-IP")
        ++ " || form: " ++ req.form
        ++ " || Accept: " ++ headerRepr (headersGet req "Accept")
        ++ " || Accept-Language: " ++ headerRepr (headersGet req "Accept-Language")
        ++ " || Accept-Encoding: " ++ headerRepr (headersGet req "Accept-Encoding")
        ++ " || Content-Type: " ++ headerRepr (headersGet req "Content-Type")
        ++ " || Content-Length: " ++ headerRepr (headersGet req "Content-Length")
        ++ " || Connection: " ++ headerRepr (headersGet req "Connection")
        ++ " || User-Agent: " ++ "None" := by
  unfold dump_request
  rw [hua]
  rfl

/-- Witness for C8 at a concrete request that has no User-Agent header. -/
theorem c8_dump_request_witness :
    headersGet ⟨"/search", [("Accept", "text/html")], "q=x", none⟩ "User-Agent" = none ∧
    dump_request ⟨"/search", [("Accept", "text/html")], "q=x", none⟩ =
      "/search || X-Forwarded-For: None || X-Real-IP: None || form: q=x"
        ++ " || Accept: text/html || Accept-Language: None || Accept-Encoding: None"
        ++ " || Content-Type: None || Content-Length: None || Connection: None"
        ++ " || User-Agent: None" := by
  refine ⟨by decide, ?_⟩
  have h := c8_dump_request ⟨"/search", [("Accept", "text/html")], "q=x", none⟩ (by decide)
  rw [h]
  decide

/-- C4: `get_network` composed with the address-parsing primitive
succeeds exactly when the address string parses; with the configured
CIDR lengths in range, a parsed address of either version always yields
a network, so unparseable input is the only failure condition. -/
theorem c4_networkOf_total (s : String) (cfg : TrustConfig)
    (h4 : TrustConfig.ipv4Prefix cfg ≤ 32)
    (h6 : TrustConfig.ipv6Prefix cfg ≤ 128) :
    (networkOf s cfg).isSome = (parseIP s).isSome := by
  unfold networkOf
  cases hp : parseIP s with
  | none => rfl
  | some a =>
    cases a with
    | v4 v => simp [get_network, ip_network, IPAddr.version, h4]
    | v6 v => simp [get_network, ip_network, IPAddr.version, h6]

/-- Witness for C4 at a concrete address and configuration. -/
theorem c4_networkOf_total_witness :
    TrustConfig.ipv4Prefix ⟨24, 48, 1⟩ ≤ 32 ∧
    TrustConfig.ipv6Prefix ⟨24, 48, 1⟩ ≤ 128 ∧
    (networkOf "203.0.113.55" ⟨24, 48, 1⟩).isSome = (parseIP "203.0.113.55").isSome :=
  ⟨by decide, by decide, c4_networkOf_total "203.0.113.55" ⟨24, 48, 1⟩ (by decide) (by decide)⟩

/-- The empty string is empty; evaluation helper for find? rewriting. -/
theorem isEmpty_empty_str : String.isEmpty "" = true := rfl

/-- Characterization of the resolved address: the first non-empty
candidate in priority order, with the sentinel as default. -/
theorem get_real_ip_result_eq (cfg : TrustConfig) (req : Request) (st : List String) :
    (get_real_ip cfg req st).1 =
      (List.find? (fun s => !s.isEmpty) (resolvedCandidates cfg req)).getD "0.0.0.0" := by
  unfold get_real_ip resolvedCandidates
  cases hf : headersGet req "X-Forwarded-For" with
  | none =>
    cases hr : headersGet req "X-Real-IP" with
    | none => cases hm : req.remote_addr with
      | none => simp [pyTruthy, List.find?_cons, isEmpty_empty_str, Option.getD]
      | some m => by_cases hme : m.isEmpty <;> simp [pyTruthy, List.find?_cons, isEmpty_empty_str, Option.getD, hme]
    | some r =>
      by_cases hre : r.isEmpty <;>
        cases hm : req.remote_addr with
        | none => simp [pyTruthy, List.find?_cons, isEmpty_empty_str, Option.getD, hre]
        | some m => by_cases hme : m.isEmpty <;> simp [pyTruthy, List.find?_cons, isEmpty_empty_str, Option.getD, hre, hme]
  | some f =>
    by_cases hfe : f.isEmpty
    · cases hr : headersGet req "X-Real-IP" with
      | none => cases hm : req.remote_addr with
        | none => simp [pyTruthy, List.find?_cons, isEmpty_empty_str, Option.getD, hfe]
        | some m => by_cases hme : m.isEmpty <;> simp [pyTruthy, List.find?_cons, isEmpty_empty_str, Option.getD, hfe, hme]
      | some r =>
        by_cases hre : r.isEmpty <;>
          cases hm : req.remote_addr with
          | none => simp [pyTruthy, List.find?_cons, isEmpty_empty_str, Option.getD, hfe, hre]
          | some m => by_cases hme : m.isEmpty <;> simp [pyTruthy, List.find?_cons, isEmpty_empty_str, Option.getD, hfe, hre, hme]
    · by_cases hce : (chainCandidate (TrustConfig.x_for cfg) f).isEmpty
      · cases hr : headersGet req "X-Real-IP" with
        | none => cases hm : req.remote_addr with
          | none => simp [pyTruthy, List.find?_cons, isEmpty_empty_str, Option.getD, hfe, hce]
          | some m => by_cases hme : m.isEmpty <;> simp [pyTruthy, List.find?_cons, isEmpty_empty_str, Option.getD, hfe, hce, hme]
        | some r =>
          by_cases hre : r.isEmpty <;>
            cases hm : req.remote_addr with
            | none => simp [pyTruthy, List.find?_cons, isEmpty_empty_str, Option.getD, hfe, hce, hre]
            | some m => by_cases hme : m.isEmpty <;> simp [pyTruthy, List.find?_cons, isEmpty_empty_str, Option.getD, hfe, hce, hre, hme]
      · simp [pyTruthy, List.find?_cons, isEmpty_empty_str, Option.getD, hfe, hce]

/-- C2: `get_real_ip` returns the first non-empty of the chain-derived
candidate, the X-Real-IP value and the peer address, in that order, and
the sentinel 0.0.0.0 when all three are empty or absent. -/
theorem c2_priority_order (cfg : TrustConfig) (req : Request) (st : List String) :
    (get_real_ip cfg req st).1 =
      (List.find? (fun s => !s.isEmpty) (resolvedCandidates cfg req)).getD "0.0.0.0" :=
  get_real_ip_result_eq cfg req st

/-- Splitting a character list always yields at least one piece. -/
theorem splitOnChar_ne_nil (sep : Char) (l : List Char) : splitOnChar sep l ≠ [] := by
  induction l with
  | nil => simp [splitOnChar]
  | cons c rest ih =>
    rw [splitOnChar]
    by_cases h : (c == sep) = true
    · simp [h]
    · simp only [h, if_false, Bool.false_eq_true]
      cases hr : splitOnChar sep rest with
      | nil => exact absurd hr ih
      | cons a t => simp

/-- The comma split of a header value is never the empty list. -/
theorem pySplit_length_pos (sep : Char) (s : String) : 0 < (pySplit sep s).length := by
  rw [pySplit, List.length_map]
  exact List.length_pos.mpr (splitOnChar_ne_nil sep s.data)

/-- C1: for a non-empty X-Forwarded-For value whose trimmed comma split
has n entries and a trust depth of at least one, the chain-derived
candidate is the entry at index n minus min(n, x_for), which equals
the integer max(0, n - x_for), an in-range index. -/
theorem c1_chain_index (s : String) (x_for : Nat) (hs : s ≠ "") (hx : 1 ≤ x_for) :
    chainCandidate x_for s =
      ((pySplit ',' s).map pyStrip).getD
        (((pySplit ',' s).map pyStrip).length -
          min ((pySplit ',' s).map pyStrip).length x_for) "" ∧
    ((((pySplit ',' s).map pyStrip).length -
        min ((pySplit ',' s).map pyStrip).length x_for : Nat) : Int) =
      max 0 ((((pySplit ',' s).map pyStrip).length : Int) - (x_for : Int)) ∧
    ((pySplit ',' s).map pyStrip).length -
        min ((pySplit ',' s).map pyStrip).length x_for <
      ((pySplit ',' s).map pyStrip).length := by
  have hn : 0 < ((pySplit ',' s).map pyStrip).length := by
    rw [List.length_map]
    exact pySplit_length_pos ',' s
  have hk : min ((pySplit ',' s).map pyStrip).length x_for ≠ 0 := by omega
  refine ⟨?_, by omega, by omega⟩
  have hc : ¬((min ((pySplit ',' s).map pyStrip).length x_for == 0) = true) := by
    simpa using hk
  simp only [chainCandidate]
  rw [if_neg hc]

/-- Witness for C1 on a concrete three-entry chain with depth two. -/
theorem c1_chain_index_witness :
    "10.0.0.1, 192.0.2.7 ,203.0.113.9" ≠ "" ∧ 1 ≤ 2 ∧
    chainCandidate 2 "10.0.0.1, 192.0.2.7 ,203.0.113.9" =
      ((pySplit ',' "10.0.0.1, 192.0.2.7 ,203.0.113.9").map pyStrip).getD
        (((pySplit ',' "10.0.0.1, 192.0.2.7 ,203.0.113.9").map pyStrip).length -
          min ((pySplit ',' "10.0.0.1, 192.0.2.7 ,203.0.113.9").map pyStrip).length 2) "" ∧
    chainCandidate 2 "10.0.0.1, 192.0.2.7 ,203.0.113.9" = "192.0.2.7" := by
  refine ⟨by decide, by decide, (c1_chain_index _ 2 (by decide) (by decide)).1, by decide⟩

/-- C7: `get_network` masks the host bits of the address under the CIDR
length configured for its version; on 203.0.113.55 with an IPv4 length
of 24 it yields 203.0.113.0/24, and on 2001:db8::1 with an IPv6 length
of 48 it yields 2001:db8::/48. -/
theorem c7_get_network_mask (cfg : TrustConfig) (a : IPAddr)
    (h4 : TrustConfig.ipv4Prefix cfg ≤ 32)
    (h6 : TrustConfig.ipv6Prefix cfg ≤ 128) :
    get_network a cfg =
      (match a with
       | .v4 v => some ⟨IPAddr.v4 (maskValue v 32 (TrustConfig.ipv4Prefix cfg)),
           TrustConfig.ipv4Prefix cfg⟩
       | .v6 v => some ⟨IPAddr.v6 (maskValue v 128 (TrustConfig.ipv6Prefix cfg)),
           TrustConfig.ipv6Prefix cfg⟩) ∧
    networkOf "203.0.113.55" ⟨24, 48, 1⟩ =
      some ⟨IPAddr.v4 (203 * 16777216 + 113 * 256), 24⟩ ∧
    networkOf "2001:db8::1" ⟨24, 48, 1⟩ =
      some ⟨IPAddr.v6 (536939960 * 2 ^ 96), 48⟩ := by
  refine ⟨?_, by decide, by decide⟩
  cases a with
  | v4 v => simp [get_network, ip_network, IPAddr.version, h4]
  | v6 v => simp [get_network, ip_network, IPAddr.version, h6]

/-- Witness for C7 at the configuration of the two concrete examples. -/
theorem c7_get_network_mask_witness :
    TrustConfig.ipv4Prefix ⟨24, 48, 1⟩ ≤ 32 ∧
    TrustConfig.ipv6Prefix ⟨24, 48, 1⟩ ≤ 128 ∧
    get_network (IPAddr.v4 3405803831) ⟨24, 48, 1⟩ =
      some ⟨IPAddr.v4 (maskValue 3405803831 32 (TrustConfig.ipv4Prefix ⟨24, 48, 1⟩)),
        TrustConfig.ipv4Prefix ⟨24, 48, 1⟩⟩ := by
  refine ⟨by decide, by decide, ?_⟩
  exact (c7_get_network_mask ⟨24, 48, 1⟩ (IPAddr.v4 3405803831) (by decide) (by decide)).1

/-- C3 fails on the code: `get_real_ip` does not validate the header
text it returns.  A request whose X-Forwarded-For value is not an
address makes the resolver return that text verbatim, which neither
parses as an address nor is the sentinel. -/
theorem c3_counterexample :
    (get_real_ip ⟨32, 128, 1⟩
        ⟨"/", [("X-Forwarded-For", "not-an-ip")], "", none⟩ []).1 = "not-an-ip" ∧
    parseIP "not-an-ip" = none ∧
    "not-an-ip" ≠ "0.0.0.0" := by
  refine ⟨by decide, by decide, by decide⟩

/-- C3 amended: the resolver returns, without any syntactic validation,
either the sentinel 0.0.0.0, the X-Real-IP text, the peer address text,
or the chain-derived entry of the X-Forwarded-For text; the result is a
parseable address only when the chosen source text is. -/
theorem c3_amended_verbatim (cfg : TrustConfig) (req : Request) (st : List String) :
    (get_real_ip cfg req st).1 = "0.0.0.0" ∨
    (get_real_ip cfg req st).1 = (headersGet req "X-Real-IP").getD "" ∨
    (get_real_ip cfg req st).1 = req.remote_addr.getD "" ∨
    (∃ s, headersGet req "X-Forwarded-For" = some s ∧
      (get_real_ip cfg req st).1 = chainCandidate (TrustConfig.x_for cfg) s) := by
  rw [get_real_ip_result_eq cfg req st]
  unfold resolvedCandidates
  cases hf : headersGet req "X-Forwarded-For" with
  | none =>
    by_cases e2 : ((headersGet req "X-Real-IP").getD "").isEmpty <;>
      by_cases e3 : (req.remote_addr.getD "").isEmpty <;>
        simp [List.find?_cons, isEmpty_empty_str, e2, e3]
  | some f =>
    by_cases hfe : f.isEmpty
    · by_cases e2 : ((headersGet req "X-Real-IP").getD "").isEmpty <;>
        by_cases e3 : (req.remote_addr.getD "").isEmpty <;>
          simp [List.find?_cons, isEmpty_empty_str, hfe, e2, e3]
    · by_cases hce : (chainCandidate (TrustConfig.x_for cfg) f).isEmpty
      · by_cases e2 : ((headersGet req "X-Real-IP").getD "").isEmpty <;>
          by_cases e3 : (req.remote_addr.getD "").isEmpty <;>
            simp [List.find?_cons, isEmpty_empty_str, hfe, hce, e2, e3]
      · refine Or.inr (Or.inr (Or.inr ⟨f, rfl, ?_⟩))
        simp [List.find?_cons, hfe, hce]

/-- Filtering for dedup-logged error lines skips any conditional
warning chunk, whatever its message text. -/
theorem filter_err_skips_warn (c : Prop) [Decidable c] (m target : String) :
    List.filter
      (fun e => LogEntry.level e == LogLevel.error && LogEntry.msg e == target)
      (if c then [⟨LogLevel.warning, m⟩] else []) = [] := by
  split <;> rfl

/-- C6: the dedup logger emits a message at error severity the first
time it is passed and drops every later identical message; hence two
resolver calls that both miss the X-Forwarded-For header log the
not-set diagnostic exactly once across the two calls. -/
theorem c6_dedup_logger (msg : String) (logged : List String)
    (cfg : TrustConfig) (req : Request) (st : List String)
    (hmem : msg ∉ logged)
    (hff : pyTruthy (headersGet req "X-Forwarded-For") = false)
    (hst : "X-Forwarded-For header is not set!" ∉ st) :
    log_error_only_once msg logged = (logged ++ [msg], [⟨LogLevel.error, msg⟩]) ∧
    log_error_only_once msg (logged ++ [msg]) = (logged ++ [msg], []) ∧
    (((get_real_ip cfg req st).2.2 ++
        (get_real_ip cfg req ((get_real_ip cfg req st).2.1)).2.2).filter
      (fun e => LogEntry.level e == LogLevel.error &&
        LogEntry.msg e == "X-Forwarded-For header is not set!")).length = 1 := by
  refine ⟨by rw [log_error_only_once, if_neg hmem], ?_, ?_⟩
  · have h : msg ∈ logged ++ [msg] := by simp
    rw [log_error_only_once, if_pos h]
  · have hMM2 : ("X-Forwarded-For header is not set!" : String) ≠
      "X-Real-IP header is not set!" := by decide
    by_cases hr : pyTruthy (headersGet req "X-Real-IP")
    · have hmem1 : ("X-Forwarded-For header is not set!" : String) ∈
        st ++ ["X-Forwarded-For header is not set!"] := by simp
      simp only [get_real_ip, hff, Bool.false_eq_true, if_false, hr, if_true,
        log_error_only_once, if_neg hst, if_pos hmem1,
        List.filter_append, filter_err_skips_warn]
      rfl
    · by_cases hm2 : ("X-Real-IP header is not set!" : String) ∈
        st ++ ["X-Forwarded-For header is not set!"]
      · have hmem1 : ("X-Forwarded-For header is not set!" : String) ∈
          st ++ ["X-Forwarded-For header is not set!"] := by simp
        simp only [get_real_ip, hff, Bool.false_eq_true, if_false, hr, if_true,
          log_error_only_once, if_neg hst, if_pos hm2, if_pos hmem1,
          List.filter_append, filter_err_skips_warn]
        rfl
      · have hmem1 : ("X-Forwarded-For header is not set!" : String) ∈
          (st ++ ["X-Forwarded-For header is not set!"]) ++
            ["X-Real-IP header is not set!"] := by simp
        have hm2b : ("X-Real-IP header is not set!" : String) ∈
          (st ++ ["X-Forwarded-For header is not set!"]) ++
            ["X-Real-IP header is not set!"] := by simp
        simp only [get_real_ip, hff, Bool.false_eq_true, if_false, hr, if_true,
          log_error_only_once, if_neg hst, if_neg hm2, if_pos hmem1, if_pos hm2b,
          List.filter_append, filter_err_skips_warn]
        rfl

/-- Witness for C6: a fresh message, and a request with no
X-Forwarded-For header resolved twice from an empty dedup state. -/
theorem c6_dedup_logger_witness :
    ("test-message" : String) ∉ ([] : List String) ∧
    pyTruthy (headersGet ⟨"/", [], "", some "10.0.0.5"⟩ "X-Forwarded-For") = false ∧
    "X-Forwarded-For header is not set!" ∉ ([] : List String) ∧
    (log_error_only_once "test-message" [] =
      ([] ++ ["test-message"], [⟨LogLevel.error, "test-message"⟩]) ∧
    log_error_only_once "test-message" ([] ++ ["test-message"]) =
      ([] ++ ["test-message"], []) ∧
    (((get_real_ip ⟨32, 128, 1⟩ ⟨"/", [], "", some "10.0.0.5"⟩ []).2.2 ++
        (get_real_ip ⟨32, 128, 1⟩ ⟨"/", [], "", some "10.0.0.5"⟩
          ((get_real_ip ⟨32, 128, 1⟩ ⟨"/", [], "", some "10.0.0.5"⟩ []).2.1)).2.2).filter
      (fun e => LogEntry.level e == LogLevel.error &&
        LogEntry.msg e == "X-Forwarded-For header is not set!")).length = 1) :=
  ⟨by decide, by decide, by decide,
    c6_dedup_logger "test-message" [] ⟨32, 128, 1⟩ ⟨"/", [], "", some "10.0.0.5"⟩ []
      (by decide) (by decide) (by decide)⟩

/-- Two strings differing at some character position differ. -/
theorem string_ne_of_data_get (p q : String) (i : Nat)
    (h : p.data[i]? ≠ q.data[i]?) : p ≠ q := by
  intro he
  rw [he] at h
  exact h rfl

/-- Indexing below the length of the left part of an append reads the
left part. -/
theorem lit_append_getElem (a : String) (l : List Char) (i : Nat)
    (h : i < a.data.length) : (a.data ++ l)[i]? = a.data[i]? :=
  List.getElem?_append_left h

/-- The X-Real-IP disagreement line never coincides with the WSGI
versus X-Forwarded-For line, whatever addresses are interpolated. -/
theorem xReal_ne_wsgiXff (r c m f : String) :
    xRealIPWarnMsg r c ≠ wsgiXffWarnMsg m f := by
  apply string_ne_of_data_get _ _ 8
  rw [xRealIPWarnMsg, wsgiXffWarnMsg]
  simp only [String.data_append, List.append_assoc]
  rw [lit_append_getElem _ _ 8 (by decide), lit_append_getElem _ _ 8 (by decide)]
  decide

/-- The X-Real-IP disagreement line never coincides with the WSGI
versus X-Real-IP line, whatever addresses are interpolated. -/
theorem xReal_ne_wsgiXReal (r c m r2 : String) :
    xRealIPWarnMsg r c ≠ wsgiXRealWarnMsg m r2 := by
  apply string_ne_of_data_get _ _ 8
  rw [xRealIPWarnMsg, wsgiXRealWarnMsg]
  simp only [String.data_append, List.append_assoc]
  rw [lit_append_getElem _ _ 8 (by decide), lit_append_getElem _ _ 8 (by decide)]
  decide

/-- The two WSGI disagreement lines never coincide, whatever addresses
are interpolated. -/
theorem wsgiXff_ne_wsgiXReal (m f r : String) :
    wsgiXffWarnMsg m f ≠ wsgiXRealWarnMsg m r := by
  intro he
  have hd := congrArg String.data he
  rw [wsgiXffWarnMsg, wsgiXRealWarnMsg] at hd
  simp only [String.data_append, List.append_assoc] at hd
  have h1 := List.append_cancel_left hd
  have h2 := List.append_cancel_left h1
  have e1 : (") is not equal to IP from X-Forwarded-For (".data ++
      (f.data ++ ")".data))[28]? = some 'F' := by
    rw [lit_append_getElem _ _ 28 (by decide)]
    decide
  have e2 : (") is not equal to IP from X-Real-IP (".data ++
      (r.data ++ ")".data))[28]? = some 'R' := by
    rw [lit_append_getElem _ _ 28 (by decide)]
    decide
  rw [h2, e2] at e1
  exact absurd e1 (by decide)

/-- When the chain candidate and the X-Real-IP value are both truthy
and unequal, the first disagreement warning is among the emitted log
lines, whatever the dedup state. -/
theorem mem_warn_xReal (cfg : TrustConfig) (req : Request) (st : List String)
    (h1 : pyTruthy (ffValue cfg req) = true)
    (h2 : pyTruthy (headersGet req "X-Real-IP") = true)
    (h3 : (ffValue cfg req).getD "" ≠ (headersGet req "X-Real-IP").getD "") :
    (⟨LogLevel.warning, xRealIPWarnMsg ((headersGet req "X-Real-IP").getD "")
      ((ffValue cfg req).getD "")⟩ : LogEntry) ∈ (get_real_ip cfg req st).2.2 := by
  have hb : ((ffValue cfg req).getD "" != (headersGet req "X-Real-IP").getD "") = true :=
    bne_iff_ne.mpr h3
  by_cases hf : pyTruthy (headersGet req "X-Forwarded-For") = true
  · simp only [ffValue, if_pos hf, Option.getD_some] at h1 hb ⊢
    simp [get_real_ip, hf, h1, h2, hb, List.mem_append]
  · simp only [ffValue, if_neg hf] at h1
    exact absurd h1 hf

/-- When the chain candidate and the peer address are both truthy and
unequal, the second disagreement warning is among the emitted log
lines, whatever the dedup state. -/
theorem mem_warn_wsgiXff (cfg : TrustConfig) (req : Request) (st : List String)
    (h1 : pyTruthy (ffValue cfg req) = true)
    (h2 : pyTruthy req.remote_addr = true)
    (h3 : (ffValue cfg req).getD "" ≠ req.remote_addr.getD "") :
    (⟨LogLevel.warning, wsgiXffWarnMsg (req.remote_addr.getD "")
      ((ffValue cfg req).getD "")⟩ : LogEntry) ∈ (get_real_ip cfg req st).2.2 := by
  have hb : ((ffValue cfg req).getD "" != req.remote_addr.getD "") = true :=
    bne_iff_ne.mpr h3
  by_cases hf : pyTruthy (headersGet req "X-Forwarded-For") = true
  · simp only [ffValue, if_pos hf, Option.getD_some] at h1 hb ⊢
    simp [get_real_ip, hf, h1, h2, hb, List.mem_append]
  · simp only [ffValue, if_neg hf] at h1
    exact absurd h1 hf

/-- When the X-Real-IP value and the peer address are both truthy and
unequal, the third disagreement warning is among the emitted log
lines, whatever the dedup state. -/
theorem mem_warn_wsgiXReal (cfg : TrustConfig) (req : Request) (st : List String)
    (h2 : pyTruthy (headersGet req "X-Real-IP") = true)
    (h4 : pyTruthy req.remote_addr = true)
    (h3 : (headersGet req "X-Real-IP").getD "" ≠ req.remote_addr.getD "") :
    (⟨LogLevel.warning, wsgiXRealWarnMsg (req.remote_addr.getD "")
      ((headersGet req "X-Real-IP").getD "")⟩ : LogEntry) ∈
      (get_real_ip cfg req st).2.2 := by
  have hb : ((headersGet req "X-Real-IP").getD "" != req.remote_addr.getD "") = true :=
    bne_iff_ne.mpr h3
  simp [get_real_ip, h2, h4, hb, List.mem_append]

/-- With a truthy X-Forwarded-For header whose chain candidate is
non-empty, the resolver returns that candidate. -/
theorem get_real_ip_result_of_chain (cfg : TrustConfig) (req : Request)
    (st : List String) (f : String)
    (hff : headersGet req "X-Forwarded-For" = some f)
    (hfne : f.isEmpty = false)
    (hcne : (chainCandidate (TrustConfig.x_for cfg) f).isEmpty = false) :
    (get_real_ip cfg req st).1 = chainCandidate (TrustConfig.x_for cfg) f := by
  rw [get_real_ip_result_eq]
  unfold resolvedCandidates
  rw [hff]
  simp [List.find?_cons, hfne, hcne]

/-- C5: with all three candidate sources present, non-empty and
pairwise distinct, `get_real_ip` emits exactly the three pairwise
distinct disagreement warnings, in order, independently of the dedup
state, and returns the chain-derived address; and in general, for every
request and every dedup state, each pair of candidate sources that is
present, non-empty and unequal has its disagreement warning emitted. -/
theorem c5_three_warnings (cfg : TrustConfig) (req : Request) (st : List String)
    (f c r m : String)
    (hff : headersGet req "X-Forwarded-For" = some f)
    (hfne : f.isEmpty = false)
    (hc : chainCandidate (TrustConfig.x_for cfg) f = c)
    (hcne : c.isEmpty = false)
    (hr : headersGet req "X-Real-IP" = some r)
    (hrne : r.isEmpty = false)
    (hm : req.remote_addr = some m)
    (hmne : m.isEmpty = false)
    (hcr : c ≠ r) (hcm : c ≠ m) (hrm : r ≠ m) :
    (get_real_ip cfg req st).1 = c ∧
    (get_real_ip cfg req st).2.2 =
      [⟨LogLevel.warning, xRealIPWarnMsg r c⟩,
       ⟨LogLevel.warning, wsgiXffWarnMsg m c⟩,
       ⟨LogLevel.warning, wsgiXRealWarnMsg m r⟩] ∧
    xRealIPWarnMsg r c ≠ wsgiXffWarnMsg m c ∧
    xRealIPWarnMsg r c ≠ wsgiXRealWarnMsg m r ∧
    wsgiXffWarnMsg m c ≠ wsgiXRealWarnMsg m r ∧
    (∀ (cfg2 : TrustConfig) (req2 : Request) (st2 : List String),
      (pyTruthy (ffValue cfg2 req2) = true →
        pyTruthy (headersGet req2 "X-Real-IP") = true →
        (ffValue cfg2 req2).getD "" ≠ (headersGet req2 "X-Real-IP").getD "" →
        (⟨LogLevel.warning, xRealIPWarnMsg ((headersGet req2 "X-Real-IP").getD "")
          ((ffValue cfg2 req2).getD "")⟩ : LogEntry) ∈ (get_real_ip cfg2 req2 st2).2.2) ∧
      (pyTruthy (ffValue cfg2 req2) = true →
        pyTruthy req2.remote_addr = true →
        (ffValue cfg2 req2).getD "" ≠ req2.remote_addr.getD "" →
        (⟨LogLevel.warning, wsgiXffWarnMsg (req2.remote_addr.getD "")
          ((ffValue cfg2 req2).getD "")⟩ : LogEntry) ∈ (get_real_ip cfg2 req2 st2).2.2) ∧
      (pyTruthy (headersGet req2 "X-Real-IP") = true →
        pyTruthy req2.remote_addr = true →
        (headersGet req2 "X-Real-IP").getD "" ≠ req2.remote_addr.getD "" →
        (⟨LogLevel.warning, wsgiXRealWarnMsg (req2.remote_addr.getD "")
          ((headersGet req2 "X-Real-IP").getD "")⟩ : LogEntry) ∈
          (get_real_ip cfg2 req2 st2).2.2)) := by
  have hbcr : (c != r) = true := bne_iff_ne.mpr hcr
  have hbcm : (c != m) = true := bne_iff_ne.mpr hcm
  have hbrm : (r != m) = true := bne_iff_ne.mpr hrm
  refine ⟨?_, ?_, xReal_ne_wsgiXff r c m c, xReal_ne_wsgiXReal r c m r,
    wsgiXff_ne_wsgiXReal m c r,
    fun cfg2 req2 st2 => ⟨mem_warn_xReal cfg2 req2 st2, mem_warn_wsgiXff cfg2 req2 st2,
      mem_warn_wsgiXReal cfg2 req2 st2⟩⟩ <;>
    simp [get_real_ip, hff, hr, hm, pyTruthy, hfne, hcne, hrne, hmne, hc,
      hbcr, hbcm, hbrm]

/-- Witness for C5: three concrete pairwise distinct sources, plus one
general-case instance in which the chain header is absent and the
X-Real-IP versus peer warning still fires. -/
theorem c5_three_warnings_witness :
    chainCandidate 1 "1.1.1.1" = "1.1.1.1" ∧
    ((get_real_ip ⟨32, 128, 1⟩
        ⟨"/", [("X-Forwarded-For", "1.1.1.1"), ("X-Real-IP", "2.2.2.2")], "",
          some "3.3.3.3"⟩ []).1 = "1.1.1.1" ∧
      (get_real_ip ⟨32, 128, 1⟩
          ⟨"/", [("X-Forwarded-For", "1.1.1.1"), ("X-Real-IP", "2.2.2.2")], "",
            some "3.3.3.3"⟩ []).2.2 =
        [⟨LogLevel.warning, xRealIPWarnMsg "2.2.2.2" "1.1.1.1"⟩,
         ⟨LogLevel.warning, wsgiXffWarnMsg "3.3.3.3" "1.1.1.1"⟩,
         ⟨LogLevel.warning, wsgiXRealWarnMsg "3.3.3.3" "2.2.2.2"⟩] ∧
      xRealIPWarnMsg "2.2.2.2" "1.1.1.1" ≠ wsgiXffWarnMsg "3.3.3.3" "1.1.1.1" ∧
      xRealIPWarnMsg "2.2.2.2" "1.1.1.1" ≠ wsgiXRealWarnMsg "3.3.3.3" "2.2.2.2" ∧
      wsgiXffWarnMsg "3.3.3.3" "1.1.1.1" ≠ wsgiXRealWarnMsg "3.3.3.3" "2.2.2.2") ∧
    (⟨LogLevel.warning, wsgiXRealWarnMsg "5.6.7.8" "1.2.3.4"⟩ : LogEntry) ∈
      (get_real_ip ⟨32, 128, 1⟩
        ⟨"/", [("X-Real-IP", "1.2.3.4")], "", some "5.6.7.8"⟩ []).2.2 := by
  have h := c5_three_warnings ⟨32, 128, 1⟩
    ⟨"/", [("X-Forwarded-For", "1.1.1.1"), ("X-Real-IP", "2.2.2.2")], "",
      some "3.3.3.3"⟩ []
    "1.1.1.1" "1.1.1.1" "2.2.2.2" "3.3.3.3"
    (by decide) (by decide) (by decide) (by decide) (by decide) (by decide)
    (by decide) (by decide) (by decide) (by decide) (by decide)
  exact ⟨by decide,
    ⟨h.1, h.2.1, h.2.2.1, h.2.2.2.1, h.2.2.2.2.1⟩,
    (h.2.2.2.2.2 ⟨32, 128, 1⟩ ⟨"/", [("X-Real-IP", "1.2.3.4")], "", some "5.6.7.8"⟩
      []).2.2 (by decide) (by decide) (by decide)⟩

/-- C10: the cross-checks compare raw strings with no address
normalization: for each of the three source pairs, two texts denoting
the same parsed address still trigger the disagreement warning, and
whenever the chain candidate is among them the chain-derived text is
returned verbatim. -/
theorem c10_no_normalization (cfg : TrustConfig) (req : Request) (st : List String)
    (f c r : String) (a : IPAddr)
    (hff : headersGet req "X-Forwarded-For" = some f)
    (hfne : f.isEmpty = false)
    (hc : chainCandidate (TrustConfig.x_for cfg) f = c)
    (hcne : c.isEmpty = false)
    (hr : headersGet req "X-Real-IP" = some r)
    (hrne : r.isEmpty = false)
    (hpc : parseIP c = some a)
    (hpr : parseIP r = some a)
    (hne : c ≠ r) :
    (get_real_ip cfg req st).1 = c ∧
    (⟨LogLevel.warning, xRealIPWarnMsg r c⟩ : LogEntry) ∈ (get_real_ip cfg req st).2.2 ∧
    (∀ (cfg2 : TrustConfig) (req2 : Request) (st2 : List String)
        (f2 c2 m2 : String) (a2 : IPAddr),
      headersGet req2 "X-Forwarded-For" = some f2 → f2.isEmpty = false →
      chainCandidate (TrustConfig.x_for cfg2) f2 = c2 → c2.isEmpty = false →
      req2.remote_addr = some m2 → m2.isEmpty = false →
      parseIP c2 = some a2 → parseIP m2 = some a2 → c2 ≠ m2 →
      ((get_real_ip cfg2 req2 st2).1 = c2 ∧
        (⟨LogLevel.warning, wsgiXffWarnMsg m2 c2⟩ : LogEntry) ∈
          (get_real_ip cfg2 req2 st2).2.2)) ∧
    (∀ (cfg3 : TrustConfig) (req3 : Request) (st3 : List String)
        (r3 m3 : String) (a3 : IPAddr),
      headersGet req3 "X-Real-IP" = some r3 → r3.isEmpty = false →
      req3.remote_addr = some m3 → m3.isEmpty = false →
      parseIP r3 = some a3 → parseIP m3 = some a3 → r3 ≠ m3 →
      (⟨LogLevel.warning, wsgiXRealWarnMsg m3 r3⟩ : LogEntry) ∈
        (get_real_ip cfg3 req3 st3).2.2) := by
  have hbcr : (c != r) = true := bne_iff_ne.mpr hne
  refine ⟨?_, ?_, ?_, ?_⟩
  · simp [get_real_ip, hff, hr, pyTruthy, hfne, hcne, hrne, hc, hbcr]
  · simp [get_real_ip, hff, hr, pyTruthy, hfne, hcne, hrne, hc, hbcr]
  · intro cfg2 req2 st2 f2 c2 m2 a2 hff2 hfne2 hc2 hcne2 hm2 hmne2 _ _ hne2
    have hffv : ffValue cfg2 req2 = some c2 := by
      rw [ffValue, hff2]
      simp [pyTruthy, hfne2, Option.getD_some, hc2]
    constructor
    · have hres := get_real_ip_result_of_chain cfg2 req2 st2 f2 hff2 hfne2
        (by rw [hc2]; exact hcne2)
      rw [hres, hc2]
    · have hmem := mem_warn_wsgiXff cfg2 req2 st2
        (by rw [hffv]; simp [pyTruthy, hcne2])
        (by rw [hm2]; simp [pyTruthy, hmne2])
        (by rw [hffv, hm2]; simpa using hne2)
      rw [hffv, hm2] at hmem
      simpa using hmem
  · intro cfg3 req3 st3 r3 m3 a3 hr3 hrne3 hm3 hmne3 _ _ hne3
    have hmem := mem_warn_wsgiXReal cfg3 req3 st3
      (by rw [hr3]; simp [pyTruthy, hrne3])
      (by rw [hm3]; simp [pyTruthy, hmne3])
      (by rw [hr3, hm3]; simpa using hne3)
    rw [hr3, hm3] at hmem
    simpa using hmem

/-- Witness for C10: two texts of the same IPv6 address, one with a
leading zero in its second group, exercising the chain versus X-Real-IP
pair, the chain versus peer pair (with X-Real-IP absent), and the
X-Real-IP versus peer pair (with the chain header absent). -/
theorem c10_no_normalization_witness :
    parseIP "2001:db8::1" = some (IPAddr.v6 (536939960 * 2 ^ 96 + 1)) ∧
    parseIP "2001:0db8::1" = some (IPAddr.v6 (536939960 * 2 ^ 96 + 1)) ∧
    ((get_real_ip ⟨32, 128, 1⟩
        ⟨"/", [("X-Forwarded-For", "2001:db8::1"), ("X-Real-IP", "2001:0db8::1")],
          "", none⟩ []).1 = "2001:db8::1" ∧
      (⟨LogLevel.warning, xRealIPWarnMsg "2001:0db8::1" "2001:db8::1"⟩ : LogEntry) ∈
        (get_real_ip ⟨32, 128, 1⟩
          ⟨"/", [("X-Forwarded-For", "2001:db8::1"), ("X-Real-IP", "2001:0db8::1")],
            "", none⟩ []).2.2) ∧
    ((get_real_ip ⟨32, 128, 1⟩
        ⟨"/", [("X-Forwarded-For", "2001:db8::1")], "", some "2001:0db8::1"⟩ []).1 =
        "2001:db8::1" ∧
      (⟨LogLevel.warning, wsgiXffWarnMsg "2001:0db8::1" "2001:db8::1"⟩ : LogEntry) ∈
        (get_real_ip ⟨32, 128, 1⟩
          ⟨"/", [("X-Forwarded-For", "2001:db8::1")], "", some "2001:0db8::1"⟩
          []).2.2) ∧
    (⟨LogLevel.warning, wsgiXRealWarnMsg "2001:0db8::1" "2001:db8::1"⟩ : LogEntry) ∈
      (get_real_ip ⟨32, 128, 1⟩
        ⟨"/", [("X-Real-IP", "2001:db8::1")], "", some "2001:0db8::1"⟩ []).2.2 := by
  have h := c10_no_normalization ⟨32, 128, 1⟩
    ⟨"/", [("X-Forwarded-For", "2001:db8::1"), ("X-Real-IP", "2001:0db8::1")],
      "", none⟩ []
    "2001:db8::1" "2001:db8::1" "2001:0db8::1" (IPAddr.v6 (536939960 * 2 ^ 96 + 1))
    (by decide) (by decide) (by decide) (by decide) (by decide) (by decide)
    (by decide) (by decide) (by decide)
  exact ⟨by decide, by decide, ⟨h.1, h.2.1⟩,
    h.2.2.1 ⟨32, 128, 1⟩
      ⟨"/", [("X-Forwarded-For", "2001:db8::1")], "", some "2001:0db8::1"⟩ []
      "2001:db8::1" "2001:db8::1" "2001:0db8::1" (IPAddr.v6 (536939960 * 2 ^ 96 + 1))
      (by decide) (by decide) (by decide) (by decide) (by decide) (by decide)
      (by decide) (by decide) (by decide),
    h.2.2.2 ⟨32, 128, 1⟩
      ⟨"/", [("X-Real-IP", "2001:db8::1")], "", some "2001:0db8::1"⟩ []
      "2001:db8::1" "2001:0db8::1" (IPAddr.v6 (536939960 * 2 ^ 96 + 1))
      (by decide) (by decide) (by decide) (by decide) (by decide) (by decide)
      (by decide)⟩

end Botdetection
